import Mathlib

/-!
# Verification of the AuthKit TanStack Start session-state machine

A shallow embedding of the two files under spec:

* `src/server/actions.ts` — the request middleware (`authkitMiddleware`) and
  the server actions (`checkSessionAction`, `getAuthAction`,
  `refreshAuthAction`, `getAccessTokenAction`, `refreshAccessTokenAction`,
  `switchToOrganizationAction`);
* `src/client/AuthKitProvider.tsx` — the client auth state machine
  (`refreshAuth`, `handleSignOut`, `handleSwitchToOrganization`, and the
  session-expiry watcher `handleVisibilityChange`).

JavaScript objects with optional keys are modelled by records whose fields
live in `JsOpt`: a key can be absent from the object, present with value
`undefined`, or present with a proper value.  This three-way split is needed
because the TypeScript source distinguishes `'k' in obj` (key presence) from
`obj.k === undefined` (definedness), and rest-spreads copy key presence.
External collaborators (the auth resolver `authkit.withAuth`, the session
store `authkit.getSession`, the token refresher `authkit.refreshSession`)
are universally quantified inputs.
-/

namespace AuthKit

/-- Status of an optional key of a JavaScript object: the key may be absent,
present with value `undefined`, or present with a value. -/
inductive JsOpt (α : Type) where
  | absent : JsOpt α
  | undefined : JsOpt α
  | val : α → JsOpt α
deriving DecidableEq

namespace JsOpt

/-- `'k' in obj`: the key is present on the object (even with an
`undefined` value). -/
def present : JsOpt α → Bool
  | .absent => false
  | .undefined => true
  | .val _ => true

/-- `obj.k !== undefined`: reading the key yields a proper value (an absent
key also reads as `undefined`). -/
def isVal : JsOpt α → Bool
  | .val _ => true
  | _ => false

/-- Reading the key as a JavaScript expression: a proper value, or
`undefined` (for both an absent key and an `undefined` one). -/
def toOption : JsOpt α → Option α
  | .val a => some a
  | _ => none

/-- Assigning the read value to a key of an object literal: the key becomes
present, with `undefined` when the source key had no proper value.  This is
what `{ k: obj.k }` does in JavaScript. -/
def reassign : JsOpt α → JsOpt α
  | .val a => .val a
  | _ => .undefined

end JsOpt

/-- JavaScript truthiness of an optional string: `undefined`, a missing key
and the empty string are all falsy. -/
def truthyStr : JsOpt String → Bool
  | .val s => s ≠ ""
  | _ => false

/-- A WorkOS user.  Only identity matters to the properties under proof, so
the record is reduced to an opaque identifier. -/
structure User where
  id : String
deriving DecidableEq

/-- Impersonation metadata, opaque to this package. -/
structure Impersonator where
  email : String
deriving DecidableEq

/-- The raw JWT claims object carried by an auth result; the package only
ever reads `feature_flags` out of it. -/
structure Claims where
  feature_flags : JsOpt (List String)
deriving DecidableEq

/-- The full authentication result produced by the auth resolver
(`authkit.withAuth`) or by the token refresher (`authkit.refreshSession`).
Shape from the spec's data model: `user` is `User | null`, every other
field is optional. -/
structure AuthResult where
  user : Option User
  accessToken : JsOpt String
  sessionId : JsOpt String
  organizationId : JsOpt String
  role : JsOpt String
  roles : JsOpt (List String)
  permissions : JsOpt (List String)
  entitlements : JsOpt (List String)
  claims : JsOpt Claims
  impersonator : JsOpt Impersonator
deriving DecidableEq

/-- The session object resolved from the request by `authkit.getSession`;
the actions only read its `refreshToken`. -/
structure Session where
  refreshToken : JsOpt String
deriving DecidableEq

/-- A payload produced for the client, viewed as a JavaScript object: every
key the involved code can possibly put on such an object is listed, each with
its presence status.  `user` is always a present key (`User | null`).
Keeping `accessToken` and `claims` as (normally absent) keys is what lets
secrecy claims be stated about the object rather than about a type. -/
structure ClientPayload where
  user : Option User
  sessionId : JsOpt String
  organizationId : JsOpt String
  role : JsOpt String
  roles : JsOpt (List String)
  permissions : JsOpt (List String)
  entitlements : JsOpt (List String)
  featureFlags : JsOpt (List String)
  impersonator : JsOpt Impersonator
  accessToken : JsOpt String
  claims : JsOpt Claims
deriving DecidableEq

/-- The object literal `{ user: null }`: the only key present is `user`. -/
def nullPayload : ClientPayload :=
  { user := none
    sessionId := .absent
    organizationId := .absent
    role := .absent
    roles := .absent
    permissions := .absent
    entitlements := .absent
    featureFlags := .absent
    impersonator := .absent
    accessToken := .absent
    claims := .absent }

/-- `claims?.feature_flags` where `claims` is the value read from the
result: `undefined` unless `claims` is a proper object with a proper
`feature_flags` value. -/
def extractFeatureFlags : JsOpt Claims → JsOpt (List String)
  | .val c => c.feature_flags.reassign
  | _ => .undefined

/-- The middleware's hydration payload (actions.ts, `authkitMiddleware`):
`authResult.user ? { user, sessionId: authResult.sessionId!, organizationId,
role, roles, permissions, entitlements, featureFlags:
authResult.claims?.feature_flags, impersonator } : { user: null }`.
Every key of the authenticated object literal is assigned explicitly, so each
is present (possibly with an `undefined` value); the TypeScript `!` on
`sessionId` is erased at runtime. -/
def hydratedAuth (authResult : AuthResult) : ClientPayload :=
  match authResult.user with
  | some u =>
    { user := some u
      sessionId := authResult.sessionId.reassign
      organizationId := authResult.organizationId.reassign
      role := authResult.role.reassign
      roles := authResult.roles.reassign
      permissions := authResult.permissions.reassign
      entitlements := authResult.entitlements.reassign
      featureFlags := extractFeatureFlags authResult.claims
      impersonator := authResult.impersonator.reassign
      accessToken := .absent
      claims := .absent }
  | none => nullPayload

/-- `checkSessionAction`: `auth.user !== null`. -/
def checkSessionAction (auth : AuthResult) : Bool :=
  auth.user.isSome

/-- `getAuthAction`: `if (!auth.user) return { user: null };
const { accessToken: _ignore, ...clientAuth } = auth; return clientAuth;`.
The rest-spread copies the presence status of every remaining key of the
full auth result — including the raw `claims` key — and the source object
has no `featureFlags` key. -/
def getAuthAction (auth : AuthResult) : ClientPayload :=
  match auth.user with
  | none => nullPayload
  | some u =>
    { user := some u
      sessionId := auth.sessionId
      organizationId := auth.organizationId
      role := auth.role
      roles := auth.roles
      permissions := auth.permissions
      entitlements := auth.entitlements
      featureFlags := .absent
      impersonator := auth.impersonator
      accessToken := .absent
      claims := auth.claims }

/-- `getAccessTokenAction`: `auth.user ? auth.accessToken : undefined`. -/
def getAccessTokenAction (auth : AuthResult) : Option String :=
  match auth.user with
  | some _ => auth.accessToken.toOption
  | none => none

/-- The argument object passed to `authkit.refreshSession` by the
refresh-style actions, together with the optional organization id second
argument. -/
structure RefreshCallArgs where
  accessToken : String
  refreshToken : String
  user : User
  impersonator : Option Impersonator
  organizationId : Option String
deriving DecidableEq

/-- Sanitisation shared by `refreshAuthAction` and
`switchToOrganizationAction` on the success path:
`const { accessToken: _ignore, claims, ...rest } = result;
return { ...rest, featureFlags: claims?.feature_flags };`.
The rest-spread copies the presence status of the remaining keys of the
refreshed result; `featureFlags` is then assigned explicitly, so it is
always present. -/
def sanitizeRefreshResult (result : AuthResult) (u : User) : ClientPayload :=
  { user := some u
    sessionId := result.sessionId
    organizationId := result.organizationId
    role := result.role
    roles := result.roles
    permissions := result.permissions
    entitlements := result.entitlements
    featureFlags := extractFeatureFlags result.claims
    impersonator := result.impersonator
    accessToken := .absent
    claims := .absent }

/-- Result of running a refresh-style action: the payload it returns, and —
to make invocation of the external token-refresh operation observable — the
arguments of the `authkit.refreshSession` call when one was made. -/
structure ActionRun where
  payload : ClientPayload
  refreshCall : Option RefreshCallArgs
deriving DecidableEq

/-- The guard `if (!session || !session.refreshToken)` of the refresh-style
actions: the refresh token the action goes on with, when the session object
resolved and its `refreshToken` is truthy. -/
def sessionRefreshToken (session : Option Session) : Option String :=
  match session with
  | none => none
  | some s => if truthyStr s.refreshToken then s.refreshToken.toOption else none

/-- The common tail of `refreshAuthAction` and
`switchToOrganizationAction`: call `authkit.refreshSession` with the
assembled arguments; `if (!result.user) return { user: null };` else
return the sanitised projection. -/
def finishRefresh (refreshSession : RefreshCallArgs → AuthResult)
    (args : RefreshCallArgs) : ActionRun :=
  match (refreshSession args).user with
  | none => ⟨nullPayload, some args⟩
  | some u => ⟨sanitizeRefreshResult (refreshSession args) u, some args⟩

/-- `refreshAuthAction`, with the external collaborators as inputs:
`session` is what `authkit.getSession(request)` resolves to and
`refreshSession` is `authkit.refreshSession`.  Control flow from the source:
short-circuit to `{ user: null }` on `!auth.user || !auth.accessToken ||
!auth.sessionId` (a string field is truthy when it holds a non-empty
value), then on `!session || !session.refreshToken`; then call
`refreshSession` with the current access token, the session's refresh
token, the user and the impersonator, passing `options?.organizationId`. -/
def refreshAuthAction (auth : AuthResult) (session : Option Session)
    (refreshSession : RefreshCallArgs → AuthResult)
    (organizationId : Option String) : ActionRun :=
  match auth.user, auth.accessToken, auth.sessionId with
  | some u, .val at_, .val sid =>
    if at_ = "" ∨ sid = "" then ⟨nullPayload, none⟩
    else
      match sessionRefreshToken session with
      | none => ⟨nullPayload, none⟩
      | some rt =>
        finishRefresh refreshSession
          { accessToken := at_
            refreshToken := rt
            user := u
            impersonator := auth.impersonator.toOption
            organizationId := organizationId }
  | _, _, _ => ⟨nullPayload, none⟩

/-- `switchToOrganizationAction`, with the same collaborators as
`refreshAuthAction`.  Control flow from the source: short-circuit to
`{ user: null }` on `!auth.user || !auth.accessToken` — the source does
not check `auth.sessionId` here — then on `!session ||
!session.refreshToken`; then call `refreshSession`, always passing
`data.organizationId`. -/
def switchToOrganizationAction (auth : AuthResult) (session : Option Session)
    (refreshSession : RefreshCallArgs → AuthResult)
    (organizationId : String) : ActionRun :=
  match auth.user, auth.accessToken with
  | some u, .val at_ =>
    if at_ = "" then ⟨nullPayload, none⟩
    else
      match sessionRefreshToken session with
      | none => ⟨nullPayload, none⟩
      | some rt =>
        finishRefresh refreshSession
          { accessToken := at_
            refreshToken := rt
            user := u
            impersonator := auth.impersonator.toOption
            organizationId := some organizationId }
  | _, _ => ⟨nullPayload, none⟩

/-! ## Client auth state machine (`AuthKitProvider.tsx`) -/

/-- The client state: the nine mirrored fields plus the `loading` flag.
React state slots hold plain values, so an `undefined` slot and a
never-assigned slot coincide: `Option` suffices here. -/
structure ClientState where
  user : Option User
  sessionId : Option String
  organizationId : Option String
  role : Option String
  roles : Option (List String)
  permissions : Option (List String)
  entitlements : Option (List String)
  featureFlags : Option (List String)
  impersonator : Option Impersonator
  loading : Bool
deriving DecidableEq, Inhabited

/-- The field updates of the client `refreshAuth` success path:
`setUser(auth.user); setSessionId(auth.user ? auth.sessionId : undefined);
setOrganizationId('organizationId' in auth ? auth.organizationId :
undefined);` and likewise for the remaining six fields.  `'k' in auth ?
auth.k : undefined` reads to a proper value exactly when the key is present
with one. -/
def applyRefreshAuthResult (auth : ClientPayload) (s : ClientState) : ClientState :=
  { s with
    user := auth.user
    sessionId := if auth.user.isSome then auth.sessionId.toOption else none
    organizationId := auth.organizationId.toOption
    role := auth.role.toOption
    roles := auth.roles.toOption
    permissions := auth.permissions.toOption
    entitlements := auth.entitlements.toOption
    featureFlags := auth.featureFlags.toOption
    impersonator := auth.impersonator.toOption }

/-- One invocation of the client `refreshAuth` operation, given the outcome
of the awaited `refreshAuthAction` call (`Except.error` is a rejected
promise carrying an error message).  Returns the sequence of state
snapshots, one per synchronous block of state setters in source order —
`setLoading(true)` before the await; the field setters on resolution; the
`finally` block's `setLoading(false)` — together with the value returned to
the caller: `some m` is the error descriptor `{ error: m }` built in the
`catch` block, `none` the normal `undefined` return. -/
def refreshAuthClient (s : ClientState) (outcome : Except String ClientPayload) :
    List ClientState × Option String :=
  let s1 := { s with loading := true }
  match outcome with
  | .ok auth =>
    let s2 := applyRefreshAuthResult auth s1
    ([s1, s2, { s2 with loading := false }], none)
  | .error m =>
    ([s1, { s1 with loading := false }], some m)

/-- The `!auth.user` branch of `handleSwitchToOrganization`: every mirrored
field is set in one synchronous block (`loading` is handled by the
`finally` block afterwards). -/
def clearAllFields (s : ClientState) : ClientState :=
  { s with
    user := none
    sessionId := none
    organizationId := none
    role := none
    roles := none
    permissions := none
    entitlements := none
    featureFlags := none
    impersonator := none }

/-- The success branch of `handleSwitchToOrganization`: direct reads
`setSessionId(auth.sessionId)` etc., so each field receives the read value
(`undefined` when the key is absent or `undefined`). -/
def applySwitchResult (auth : ClientPayload) (s : ClientState) : ClientState :=
  { s with
    user := auth.user
    sessionId := auth.sessionId.toOption
    organizationId := auth.organizationId.toOption
    role := auth.role.toOption
    roles := auth.roles.toOption
    permissions := auth.permissions.toOption
    entitlements := auth.entitlements.toOption
    featureFlags := auth.featureFlags.toOption
    impersonator := auth.impersonator.toOption }

/-- One invocation of the client `switchToOrganization` operation, given
the outcome of the awaited `switchToOrganizationAction` call.  Same
conventions as `refreshAuthClient`: `setLoading(true)`; then either the
clearing block (refreshed result without a user), the overwriting block, or
nothing (rejection); then the `finally` block's `setLoading(false)`. -/
def switchToOrgClient (s : ClientState) (outcome : Except String ClientPayload) :
    List ClientState × Option String :=
  let s1 := { s with loading := true }
  match outcome with
  | .ok auth =>
    match auth.user with
    | none =>
      let s2 := clearAllFields s1
      ([s1, s2, { s2 with loading := false }], none)
    | some _ =>
      let s2 := applySwitchResult auth s1
      ([s1, s2, { s2 with loading := false }], none)
  | .error m =>
    ([s1, { s1 with loading := false }], some m)

/-! ## Sign-out redirect handling -/

/-- `bs` is an initial segment of `as` (character-list form of
JavaScript's `String.startsWith`). -/
def startsWithL : List Char → List Char → Bool
  | _, [] => true
  | [], _ :: _ => false
  | a :: as, b :: bs => a == b && startsWithL as bs

/-- `sub` occurs as a contiguous segment of the second list (character-list
form of JavaScript's `String.includes`). -/
def containsL (sub : List Char) : List Char → Bool
  | [] => sub.isEmpty
  | c :: rest => startsWithL (c :: rest) sub || containsL sub rest

/-- JavaScript `s.startsWith(p)`. -/
def jsStartsWith (s p : String) : Bool := startsWithL s.data p.data

/-- JavaScript `s.includes(sub)`: substring containment. -/
def jsIncludes (s sub : String) : Bool := containsL sub.data s.data

/-- The classification in `handleSignOut`:
`location.startsWith('http') && !location.includes(window.location.host)`. -/
def isExternalUrl (location host : String) : Bool :=
  jsStartsWith location "http" && !(jsIncludes location host)

/-- What the `signOut` server call does from the client's point of view:
either it completes, or it throws — a `Response` (the redirect signal,
whose `Location` header may be missing) or some other error. -/
inductive SignOutError where
  | response (location : Option String)
  | other (message : String)
deriving DecidableEq

/-- Outcome of the awaited `signOut` call. -/
inductive SignOutRun where
  | completed
  | threw (e : SignOutError)
deriving DecidableEq

/-- What `handleSignOut` does after the call. -/
inductive NavAction where
  | noNav
  | fullPageNav (url : String)
  | routerNav (dest : String)
  | rethrown (e : SignOutError)
deriving DecidableEq

/-- `handleSignOut` from the source: a caught `Response` with a truthy
`Location` header is classified by `isExternalUrl` and navigated
(`window.location.href = location` for external, `navigate({ to:
location })` for internal); everything else caught — a non-`Response`
error, or a `Response` without a truthy `Location` — is re-thrown. -/
def handleSignOut (host : String) (run : SignOutRun) : NavAction :=
  match run with
  | .completed => .noNav
  | .threw e =>
    match e with
    | .response loc =>
      match loc with
      | some l =>
        if l = "" then .rethrown e
        else if isExternalUrl l host then .fullPageNav l
        else .routerNav l
      | none => .rethrown e
    | .other _ => .rethrown e

/-- Modelled from the spec: the host component of a destination URL, for
comparing against the current page's host ("external = different host").
A URL without an `http`/`https` scheme is a same-origin route and has no
host of its own. -/
def specHostOf (url : String) : Option String :=
  if jsStartsWith url "https://" then
    some (String.mk ((url.data.drop 8).takeWhile (fun c => c != '/' && c != ':' && c != '?' && c != '#')))
  else if jsStartsWith url "http://" then
    some (String.mk ((url.data.drop 7).takeWhile (fun c => c != '/' && c != ':' && c != '?' && c != '#')))
  else none

/-- Modelled from the spec: the destination's host differs from the current
page's host (a scheme-less destination is an in-app route on the same
host). -/
def specHostDiffers (location host : String) : Bool :=
  match specHostOf location with
  | some h => h != host
  | none => false

/-! ## Session-expiry watcher -/

/-- Events driving the watcher: a `visibilitychange`/`focus` event (with the
document's visibility at that moment), or the completion — on any path — of
an in-flight `checkSessionAction` round trip. -/
inductive WatcherEvent where
  | trigger (visible : Bool)
  | complete
deriving DecidableEq

/-- Watcher state: the `visibilityChangedCalled` latch, the number of
`checkSessionAction` calls currently awaited, and a count of all calls ever
issued. -/
structure WatcherState where
  latch : Bool
  inflight : Nat
  issued : Nat
deriving DecidableEq

/-- State before any event: latch clear, nothing in flight. -/
def watcherInit : WatcherState := ⟨false, 0, 0⟩

/-- One event of `handleVisibilityChange` (both listeners dispatch the same
handler).  On a trigger: return at once if the latch is set; otherwise, if
the document is visible, set the latch and issue a `checkSessionAction`
call.  On completion of a call: the issuing invocation's `finally` block
clears the latch.  The handler runs synchronously up to the `await`, so an
event is a single atomic step. -/
def watcherStep (s : WatcherState) (e : WatcherEvent) : WatcherState :=
  match e with
  | .trigger visible =>
    if s.latch then s
    else if visible then ⟨true, s.inflight + 1, s.issued + 1⟩
    else s
  | .complete =>
    if s.inflight = 0 then s
    else ⟨false, s.inflight - 1, s.issued⟩

/-- The watcher state after a sequence of events starting from mount. -/
def watcherRun (evs : List WatcherEvent) : WatcherState :=
  evs.foldl watcherStep watcherInit

/-- The check-completion side of the watcher body:
`const hasSession = await checkSessionAction(); if (!hasSession) throw new
Error('Session expired');` inside a `try` whose `catch` reacts only to an
`Error` whose message includes `'Failed to fetch'`, invoking the
caller-supplied callback when one exists and reloading the page
otherwise. -/
inductive ExpiryAction where
  | noAction
  | invokeCallback
  | reloadPage
deriving DecidableEq

/-- A JavaScript exception as the watcher sees it: whether it is an
`Error` instance, and its message. -/
structure JsError where
  isErrorInstance : Bool
  message : String
deriving DecidableEq

/-- The watcher's reaction to the outcome of one `checkSessionAction`
round trip, given whether an `onSessionExpired` callback was supplied. -/
def sessionCheckEffect (result : Except JsError Bool) (hasCallback : Bool) : ExpiryAction :=
  let caught : Option JsError :=
    match result with
    | .ok true => none
    | .ok false => some ⟨true, "Session expired"⟩
    | .error e => some e
  match caught with
  | none => .noAction
  | some e =>
    if e.isErrorInstance && jsIncludes e.message "Failed to fetch" then
      if hasCallback then .invokeCallback else .reloadPage
    else .noAction

/-! ## Concrete fixtures

Closed inputs used to exhibit counterexamples and to instantiate the
hypotheses of the theorems below. -/

/-- A concrete user. -/
def u0 : User := ⟨"user_123"⟩

/-- A fully unauthenticated auth result. -/
def emptyAuth : AuthResult :=
  { user := none
    accessToken := .absent
    sessionId := .absent
    organizationId := .absent
    role := .absent
    roles := .absent
    permissions := .absent
    entitlements := .absent
    claims := .absent
    impersonator := .absent }

/-- An authenticated auth result with a mix of present, `undefined` and
absent optional keys, and a raw claims object carrying feature flags. -/
def authA : AuthResult :=
  { user := some u0
    accessToken := .val "tok"
    sessionId := .val "session_123"
    organizationId := .val "org_123"
    role := .undefined
    roles := .absent
    permissions := .val ["read", "write"]
    entitlements := .absent
    claims := .val ⟨.val ["flag_1"]⟩
    impersonator := .absent }

/-- `authA` with the session id missing from the resolved context. -/
def authNoSid : AuthResult := { authA with sessionId := .absent }

/-- A session whose refresh token is present. -/
def sess0 : Session := ⟨.val "rt"⟩

/-- A token refresher that always returns the authenticated `authA`. -/
def refC : RefreshCallArgs → AuthResult := fun _ => authA

/-- A token refresher that always returns an unauthenticated result. -/
def refNone : RefreshCallArgs → AuthResult := fun _ => emptyAuth

/-- A client state with stale values in every mirrored field. -/
def cs0 : ClientState :=
  { user := some u0
    sessionId := some "old_session"
    organizationId := some "old_org"
    role := some "admin"
    roles := some ["admin", "user"]
    permissions := some ["read"]
    entitlements := some ["feature_a"]
    featureFlags := some ["flag_0"]
    impersonator := some ⟨"admin@example.com"⟩
    loading := false }

/-- A sanitized payload with several keys absent, to exercise the clearing
of fields missing from an action result. -/
def payloadB : ClientPayload :=
  { user := some u0
    sessionId := .val "new_session"
    organizationId := .val "org_456"
    role := .absent
    roles := .absent
    permissions := .undefined
    entitlements := .absent
    featureFlags := .val ["flag_2"]
    impersonator := .absent
    accessToken := .absent
    claims := .absent }

/-- A sanitized payload without a user. -/
def payloadNone : ClientPayload := { payloadB with user := none }

/-! ## Helper lemmas -/

lemma finishRefresh_refreshCall (r : RefreshCallArgs → AuthResult) (args : RefreshCallArgs) :
    (finishRefresh r args).refreshCall = some args := by
  unfold finishRefresh
  split <;> rfl

lemma finishRefresh_payload (r : RefreshCallArgs → AuthResult) (args : RefreshCallArgs) :
    (finishRefresh r args).payload = nullPayload ∨
      ∃ u, (r args).user = some u ∧
        (finishRefresh r args).payload = sanitizeRefreshResult (r args) u := by
  unfold finishRefresh
  rcases h : (r args).user with _ | u
  · exact Or.inl rfl
  · exact Or.inr ⟨u, rfl, rfl⟩

/-- Every run of `refreshAuthAction` either short-circuits before the
token-refresh call or ends in `finishRefresh`. -/
lemma refreshAuthAction_shape (a : AuthResult) (session : Option Session)
    (r : RefreshCallArgs → AuthResult) (orgId : Option String) :
    refreshAuthAction a session r orgId = ⟨nullPayload, none⟩ ∨
      ∃ args, args.organizationId = orgId ∧
        refreshAuthAction a session r orgId = finishRefresh r args := by
  unfold refreshAuthAction
  repeat' split
  all_goals first
    | exact Or.inl rfl
    | exact Or.inr ⟨_, rfl, rfl⟩

/-- Every run of `switchToOrganizationAction` either short-circuits before
the token-refresh call or ends in `finishRefresh`. -/
lemma switchToOrganizationAction_shape (a : AuthResult) (session : Option Session)
    (r : RefreshCallArgs → AuthResult) (orgId : String) :
    switchToOrganizationAction a session r orgId = ⟨nullPayload, none⟩ ∨
      ∃ args, args.organizationId = some orgId ∧
        switchToOrganizationAction a session r orgId = finishRefresh r args := by
  unfold switchToOrganizationAction
  repeat' split
  all_goals first
    | exact Or.inl rfl
    | exact Or.inr ⟨_, rfl, rfl⟩

lemma hydratedAuth_of_user (a : AuthResult) (u : User) (h : a.user = some u) :
    hydratedAuth a =
      { user := some u
        sessionId := a.sessionId.reassign
        organizationId := a.organizationId.reassign
        role := a.role.reassign
        roles := a.roles.reassign
        permissions := a.permissions.reassign
        entitlements := a.entitlements.reassign
        featureFlags := extractFeatureFlags a.claims
        impersonator := a.impersonator.reassign
        accessToken := .absent
        claims := .absent } := by
  unfold hydratedAuth
  rw [h]

lemma hydratedAuth_of_no_user (a : AuthResult) (h : a.user = none) :
    hydratedAuth a = nullPayload := by
  unfold hydratedAuth
  rw [h]

lemma JsOpt.isVal_reassign (x : JsOpt α) : x.reassign.isVal = x.isVal := by
  cases x <;> rfl

/-! ## Claim theorems -/

/-- C1: For every authenticated auth resolution, every sanitized payload
produced for the client — the middleware hydration payload and the results
of `getAuthAction`, `refreshAuthAction` and `switchToOrganizationAction` —
contains no `accessToken` field, regardless of which optional claims are
present on the resolved auth result. -/
theorem c1_sanitized_payloads_never_carry_access_token
    (a : AuthResult) (session : Option Session) (r : RefreshCallArgs → AuthResult)
    (opts : Option String) (orgId : String) :
    (hydratedAuth a).accessToken = .absent ∧
    (getAuthAction a).accessToken = .absent ∧
    (refreshAuthAction a session r opts).payload.accessToken = .absent ∧
    (switchToOrganizationAction a session r orgId).payload.accessToken = .absent := by
  refine ⟨?_, ?_, ?_, ?_⟩
  · rcases h : a.user with _ | u
    · rw [hydratedAuth_of_no_user a h]; rfl
    · rw [hydratedAuth_of_user a u h]
  · unfold getAuthAction
    split <;> rfl
  · rcases refreshAuthAction_shape a session r opts with h | ⟨args, _, h⟩
    · rw [h]; rfl
    · rw [h]
      rcases finishRefresh_payload r args with hp | ⟨u, _, hp⟩ <;> rw [hp] <;> rfl
  · rcases switchToOrganizationAction_shape a session r orgId with h | ⟨args, _, h⟩
    · rw [h]; rfl
    · rw [h]
      rcases finishRefresh_payload r args with hp | ⟨u, _, hp⟩ <;> rw [hp] <;> rfl

/-- C2: For every request where the auth resolver returns a null user, the
sanitized hydration payload built by the middleware is exactly the object
`{ user: null }`: its `user` key is null and none of the other possible
keys is present on the object. -/
theorem c2_null_user_hydration_is_exactly_user_null
    (a : AuthResult) (h : a.user = none) :
    hydratedAuth a = nullPayload ∧
    (hydratedAuth a).user = none ∧
    (hydratedAuth a).sessionId.present = false ∧
    (hydratedAuth a).organizationId.present = false ∧
    (hydratedAuth a).role.present = false ∧
    (hydratedAuth a).roles.present = false ∧
    (hydratedAuth a).permissions.present = false ∧
    (hydratedAuth a).entitlements.present = false ∧
    (hydratedAuth a).featureFlags.present = false ∧
    (hydratedAuth a).impersonator.present = false ∧
    (hydratedAuth a).accessToken.present = false ∧
    (hydratedAuth a).claims.present = false := by
  rw [hydratedAuth_of_no_user a h]
  exact ⟨rfl, rfl, rfl, rfl, rfl, rfl, rfl, rfl, rfl, rfl, rfl, rfl⟩

/-- Witness for C2 at a concrete unauthenticated resolution. -/
theorem c2_witness : hydratedAuth emptyAuth = nullPayload :=
  (c2_null_user_hydration_is_exactly_user_null emptyAuth rfl).1

/-- C3: For every code path that produces a sanitized payload — the
middleware hydration payload, `refreshAuthAction` and
`switchToOrganizationAction` — the payload has a defined `sessionId` field
if and only if its `user` field is non-null.  The hypotheses are the
resolver guarantee the spec states: an authenticated result of the auth
resolver, and of the token refresher, carries a defined session id. -/
theorem c3_sessionId_defined_iff_user_non_null
    (a : AuthResult) (session : Option Session) (r : RefreshCallArgs → AuthResult)
    (opts : Option String) (orgId : String)
    (hres : a.user.isSome = true → a.sessionId.isVal = true)
    (href : ∀ args, (r args).user.isSome = true → (r args).sessionId.isVal = true) :
    (hydratedAuth a).sessionId.isVal = (hydratedAuth a).user.isSome ∧
    (refreshAuthAction a session r opts).payload.sessionId.isVal =
      (refreshAuthAction a session r opts).payload.user.isSome ∧
    (switchToOrganizationAction a session r orgId).payload.sessionId.isVal =
      (switchToOrganizationAction a session r orgId).payload.user.isSome := by
  have hfin : ∀ args, (finishRefresh r args).payload.sessionId.isVal =
      (finishRefresh r args).payload.user.isSome := by
    intro args
    rcases finishRefresh_payload r args with hp | ⟨u, hu, hp⟩
    · rw [hp]; rfl
    · rw [hp]
      show (r args).sessionId.isVal = (some u).isSome
      rw [href args (by rw [hu]; rfl)]
      rfl
  refine ⟨?_, ?_, ?_⟩
  · rcases h : a.user with _ | u
    · rw [hydratedAuth_of_no_user a h]; rfl
    · rw [hydratedAuth_of_user a u h]
      show a.sessionId.reassign.isVal = (some u).isSome
      rw [JsOpt.isVal_reassign, hres (by rw [h]; rfl)]
      rfl
  · rcases refreshAuthAction_shape a session r opts with h | ⟨args, _, h⟩
    · rw [h]; rfl
    · rw [h]; exact hfin args
  · rcases switchToOrganizationAction_shape a session r orgId with h | ⟨args, _, h⟩
    · rw [h]; rfl
    · rw [h]; exact hfin args

/-- Witness for C3 at a concrete authenticated resolution and refresher. -/
theorem c3_witness :
    (hydratedAuth authA).sessionId.isVal = (hydratedAuth authA).user.isSome ∧
    (refreshAuthAction authA (some sess0) refC none).payload.sessionId.isVal =
      (refreshAuthAction authA (some sess0) refC none).payload.user.isSome ∧
    (switchToOrganizationAction authA (some sess0) refC "org_9").payload.sessionId.isVal =
      (switchToOrganizationAction authA (some sess0) refC "org_9").payload.user.isSome :=
  c3_sessionId_defined_iff_user_non_null authA (some sess0) refC none "org_9"
    (fun _ => by decide) (fun _ _ => rfl)

/-- C4 counterexample: with a user and an access token in context but no
session id at all, `switchToOrganizationAction` still invokes the
token-refresh operation (its `refreshSession` call happens, and with an
authenticated refresh result the returned payload carries the user) —
whereas the claim requires it to return `{ user: null }` without invoking
the token-refresh operation when the session id is missing. -/
theorem c4_counterexample :
    authNoSid.user.isSome = true ∧
    truthyStr authNoSid.accessToken = true ∧
    authNoSid.sessionId.isVal = false ∧
    (switchToOrganizationAction authNoSid (some sess0) refC "org_9").refreshCall =
      some { accessToken := "tok", refreshToken := "rt", user := u0
             impersonator := none, organizationId := some "org_9" } ∧
    (switchToOrganizationAction authNoSid (some sess0) refC "org_9").payload.user = some u0 := by
  decide

/-- C4 (amended): `switchToOrganizationAction` requires an existing user
and access token — unlike `refreshAuthAction` it does not check the
session id.  On a missing user or access token, or a missing
session/refresh token, it returns `{ user: null }` without invoking the
token-refresh operation; whenever those checks pass it invokes the
token-refresh operation, even when the session id is missing, always
passing the requested organization id. -/
theorem c4_switch_preconditions_lack_session_id_check
    (auth : AuthResult) (session : Option Session)
    (r : RefreshCallArgs → AuthResult) (orgId : String) :
    ((auth.user = none ∨ truthyStr auth.accessToken = false) →
      switchToOrganizationAction auth session r orgId = ⟨nullPayload, none⟩) ∧
    (sessionRefreshToken session = none →
      switchToOrganizationAction auth session r orgId = ⟨nullPayload, none⟩) ∧
    (∀ u at_ rt, auth.user = some u → auth.accessToken = .val at_ → at_ ≠ "" →
      sessionRefreshToken session = some rt →
      switchToOrganizationAction auth session r orgId =
        finishRefresh r
          { accessToken := at_
            refreshToken := rt
            user := u
            impersonator := auth.impersonator.toOption
            organizationId := some orgId }) ∧
    (∀ args, (switchToOrganizationAction auth session r orgId).refreshCall = some args →
      args.organizationId = some orgId) := by
  refine ⟨?_, ?_, ?_, ?_⟩
  · intro h
    unfold switchToOrganizationAction
    rcases hu : auth.user with _ | u
    · rfl
    · cases hat : auth.accessToken with
      | absent => rfl
      | undefined => rfl
      | val s =>
        have hs : s = "" := by
          rcases h with h | h
          · rw [hu] at h; cases h
          · rw [hat] at h
            simpa [truthyStr] using h
        subst hs
        simp
  · intro h
    unfold switchToOrganizationAction
    rcases hu : auth.user with _ | u
    · rfl
    · cases hat : auth.accessToken with
      | absent => rfl
      | undefined => rfl
      | val s =>
        by_cases hs : s = ""
        · subst hs; simp
        · simp [hs, h]
  · intro u at_ rt hu hat hne hsess
    unfold switchToOrganizationAction
    rw [hu, hat]
    simp [hne, hsess]
  · intro args h
    rcases switchToOrganizationAction_shape auth session r orgId with hs | ⟨args', horg, hs⟩
    · rw [hs] at h; cases h
    · rw [hs, finishRefresh_refreshCall] at h
      cases h
      exact horg

/-- Witness for C4 (amended) at concrete contexts: a missing user
short-circuits, a missing session short-circuits, and with user and token
present but no session id the refresh call is still reached. -/
theorem c4_witness :
    switchToOrganizationAction emptyAuth (some sess0) refC "org_1" = ⟨nullPayload, none⟩ ∧
    switchToOrganizationAction authA none refC "org_1" = ⟨nullPayload, none⟩ ∧
    switchToOrganizationAction authNoSid (some sess0) refC "org_9" =
      finishRefresh refC
        { accessToken := "tok"
          refreshToken := "rt"
          user := u0
          impersonator := none
          organizationId := some "org_9" } :=
  ⟨(c4_switch_preconditions_lack_session_id_check emptyAuth (some sess0) refC "org_1").1
      (Or.inl rfl),
   (c4_switch_preconditions_lack_session_id_check authA none refC "org_1").2.1 rfl,
   (c4_switch_preconditions_lack_session_id_check authNoSid (some sess0) refC "org_9").2.2.1
      u0 "tok" "rt" rfl rfl (by decide) rfl⟩

/-- C5 counterexample: `getAuthAction` on an authenticated context returns
the raw `claims` object to the client unchanged and leaves `featureFlags`
off the payload — whereas the claim requires every representation sent to
the browser to exclude the raw claims object and carry the extracted
`featureFlags`. -/
theorem c5_counterexample :
    authA.user.isSome = true ∧
    authA.claims = .val ⟨.val ["flag_1"]⟩ ∧
    (getAuthAction authA).claims = .val ⟨.val ["flag_1"]⟩ ∧
    (getAuthAction authA).featureFlags = .absent := by
  decide

/-- C5 (amended): the middleware hydration payload, `refreshAuthAction`
and `switchToOrganizationAction` exclude the raw claims object and extract
`claims.feature_flags` into `featureFlags`; `getAuthAction`, however,
strips only the access token, passing the raw claims object through to the
client with no `featureFlags` key. -/
theorem c5_claims_stripped_except_getAuth
    (a : AuthResult) (session : Option Session) (r : RefreshCallArgs → AuthResult)
    (opts : Option String) (orgId : String) :
    (hydratedAuth a).claims = .absent ∧
    (∀ u, a.user = some u →
      (hydratedAuth a).featureFlags = extractFeatureFlags a.claims) ∧
    (refreshAuthAction a session r opts).payload.claims = .absent ∧
    (switchToOrganizationAction a session r orgId).payload.claims = .absent ∧
    (∀ args u, (r args).user = some u →
      (finishRefresh r args).payload.featureFlags = extractFeatureFlags (r args).claims) ∧
    (∀ u, a.user = some u →
      (getAuthAction a).claims = a.claims ∧ (getAuthAction a).featureFlags = .absent) := by
  refine ⟨?_, ?_, ?_, ?_, ?_, ?_⟩
  · rcases h : a.user with _ | u
    · rw [hydratedAuth_of_no_user a h]; rfl
    · rw [hydratedAuth_of_user a u h]
  · intro u h
    rw [hydratedAuth_of_user a u h]
  · rcases refreshAuthAction_shape a session r opts with h | ⟨args, _, h⟩
    · rw [h]; rfl
    · rw [h]
      rcases finishRefresh_payload r args with hp | ⟨u, _, hp⟩ <;> rw [hp] <;> rfl
  · rcases switchToOrganizationAction_shape a session r orgId with h | ⟨args, _, h⟩
    · rw [h]; rfl
    · rw [h]
      rcases finishRefresh_payload r args with hp | ⟨u, _, hp⟩ <;> rw [hp] <;> rfl
  · intro args u h
    unfold finishRefresh
    rw [h]
    rfl
  · intro u h
    unfold getAuthAction
    rw [h]
    exact ⟨rfl, rfl⟩

/-- Witness for C5 (amended) at a concrete authenticated context. -/
theorem c5_witness :
    (hydratedAuth authA).featureFlags = extractFeatureFlags authA.claims ∧
    (finishRefresh refC
        { accessToken := "tok"
          refreshToken := "rt"
          user := u0
          impersonator := none
          organizationId := some "org_9" }).payload.featureFlags =
      extractFeatureFlags authA.claims ∧
    (getAuthAction authA).claims = authA.claims :=
  ⟨(c5_claims_stripped_except_getAuth authA (some sess0) refC none "org_9").2.1 u0 rfl,
   (c5_claims_stripped_except_getAuth authA (some sess0) refC none "org_9").2.2.2.2.1
      _ u0 rfl,
   ((c5_claims_stripped_except_getAuth authA (some sess0) refC none "org_9").2.2.2.2.2
      u0 rfl).1⟩

/-- C6: every invocation of the client `refreshAuth` sets `loading` to true
at the start and back to false on every exit path; on resolution the
mirrored fields of the final state all come from the result (a field the
result lacks is cleared to `undefined`, never left stale); on rejection the
operation returns the error descriptor `{ error: message }` — it produces a
value rather than propagating the exception. -/
theorem c6_refresh_auth_loading_and_replacement
    (s : ClientState) (outcome : Except String ClientPayload) :
    (refreshAuthClient s outcome).1.head? = some { s with loading := true } ∧
    (refreshAuthClient s outcome).1.getLast?.map ClientState.loading = some false ∧
    (∀ auth, outcome = .ok auth →
      (refreshAuthClient s outcome).1.getLast? =
        some { applyRefreshAuthResult auth s with loading := false } ∧
      (refreshAuthClient s outcome).2 = none) ∧
    (∀ m, outcome = .error m →
      (refreshAuthClient s outcome).2 = some m ∧
      (refreshAuthClient s outcome).1.getLast? = some { s with loading := false }) := by
  cases outcome with
  | ok auth =>
    refine ⟨rfl, rfl, ?_, ?_⟩
    · intro auth' h
      cases h
      exact ⟨rfl, rfl⟩
    · intro m h
      cases h
  | error m =>
    refine ⟨rfl, rfl, ?_, ?_⟩
    · intro auth h
      cases h
    · intro m' h
      cases h
      exact ⟨rfl, rfl⟩

/-- Witness for C6: a resolving and a rejecting invocation at concrete
inputs. -/
theorem c6_witness :
    (refreshAuthClient cs0 (.ok payloadB)).1.getLast? =
      some { applyRefreshAuthResult payloadB cs0 with loading := false } ∧
    (refreshAuthClient cs0 (.error "Refresh failed")).2 = some "Refresh failed" :=
  ⟨((c6_refresh_auth_loading_and_replacement cs0 (.ok payloadB)).2.2.1 payloadB rfl).1,
   ((c6_refresh_auth_loading_and_replacement cs0 (.error "Refresh failed")).2.2.2
      "Refresh failed" rfl).1⟩

/-- C7: when the client `switchToOrganization` gets a result without a
user, all nine mirrored fields are cleared in one state transition — the
whole trace is the loading-set step, the single clearing step, and the
loading-clear step, with no state in between — and `clearAllFields` indeed
clears all nine; on a result with a user every field is overwritten from
the result; `loading` is false on every exit path. -/
theorem c7_switch_clears_all_fields_atomically
    (s : ClientState) (outcome : Except String ClientPayload) :
    (switchToOrgClient s outcome).1.getLast?.map ClientState.loading = some false ∧
    (∀ x : ClientState,
      (clearAllFields x).user = none ∧ (clearAllFields x).sessionId = none ∧
      (clearAllFields x).organizationId = none ∧ (clearAllFields x).role = none ∧
      (clearAllFields x).roles = none ∧ (clearAllFields x).permissions = none ∧
      (clearAllFields x).entitlements = none ∧ (clearAllFields x).featureFlags = none ∧
      (clearAllFields x).impersonator = none) ∧
    (∀ auth, outcome = .ok auth → auth.user = none →
      (switchToOrgClient s outcome).1 =
        [{ s with loading := true },
         clearAllFields { s with loading := true },
         { clearAllFields { s with loading := true } with loading := false }]) ∧
    (∀ auth u, outcome = .ok auth → auth.user = some u →
      (switchToOrgClient s outcome).1.getLast? =
        some { applySwitchResult auth s with loading := false }) := by
  refine ⟨?_, ?_, ?_, ?_⟩
  · cases outcome with
    | ok auth => rcases h : auth.user with _ | u <;> simp [switchToOrgClient, h]
    | error m => rfl
  · intro x
    exact ⟨rfl, rfl, rfl, rfl, rfl, rfl, rfl, rfl, rfl⟩
  · intro auth h hu
    cases h
    simp [switchToOrgClient, hu]
  · intro auth u h hu
    cases h
    simp only [switchToOrgClient]
    rw [hu]
    rfl

/-- Witness for C7: a concrete user-less result clears everything in one
step; a concrete authenticated result overwrites every field. -/
theorem c7_witness :
    (switchToOrgClient cs0 (.ok payloadNone)).1 =
      [{ cs0 with loading := true },
       clearAllFields { cs0 with loading := true },
       { clearAllFields { cs0 with loading := true } with loading := false }] ∧
    (switchToOrgClient cs0 (.ok payloadB)).1.getLast? =
      some { applySwitchResult payloadB cs0 with loading := false } :=
  ⟨(c7_switch_clears_all_fields_atomically cs0 (.ok payloadNone)).2.2.1 payloadNone rfl rfl,
   (c7_switch_clears_all_fields_atomically cs0 (.ok payloadB)).2.2.2 payloadB u0 rfl rfl⟩

/-- C8 counterexample: a redirect destination whose host plainly differs
from the current page's host (`evil.com` vs `app.example.com`) is
classified as internal by the code — because the destination string merely
contains the current host as a substring — so `handleSignOut` performs an
in-place router navigation where the claim requires a full page
navigation. -/
theorem c8_counterexample :
    specHostDiffers "https://evil.com/app.example.com" "app.example.com" = true ∧
    isExternalUrl "https://evil.com/app.example.com" "app.example.com" = false ∧
    handleSignOut "app.example.com"
        (.threw (.response (some "https://evil.com/app.example.com"))) =
      .routerNav "https://evil.com/app.example.com" := by
  decide

/-- C8 (amended): on a redirect signal carrying a truthy `Location`, the
client classifies the destination as external exactly when it starts with
`"http"` and does not contain the current page's host as a substring —
not by comparing hosts — navigating with a full page load when external
and with the router when internal; a redirect signal without a truthy
`Location`, and any non-redirect error, is re-thrown. -/
theorem c8_redirect_classification (host : String) :
    handleSignOut host .completed = .noNav ∧
    (∀ m, handleSignOut host (.threw (.other m)) = .rethrown (.other m)) ∧
    handleSignOut host (.threw (.response none)) = .rethrown (.response none) ∧
    (∀ l, l ≠ "" →
      handleSignOut host (.threw (.response (some l))) =
        if isExternalUrl l host then .fullPageNav l else .routerNav l) ∧
    (∀ l, isExternalUrl l host = (jsStartsWith l "http" && !(jsIncludes l host))) := by
  refine ⟨rfl, fun m => rfl, rfl, ?_, fun l => rfl⟩
  intro l hl
  simp [handleSignOut, hl]

/-- Witness for C8 (amended): a relative route is navigated in place. -/
theorem c8_witness :
    handleSignOut "app.example.com" (.threw (.response (some "/account"))) =
      .routerNav "/account" :=
  ((c8_redirect_classification "app.example.com").2.2.2.1 "/account" (by decide)).trans
    (by decide)

/-- One watcher event preserves the latch/in-flight coupling. -/
lemma watcherStep_inv : ∀ (s : WatcherState) (e : WatcherEvent),
    s.inflight = (if s.latch then 1 else 0) →
    (watcherStep s e).inflight = if (watcherStep s e).latch then 1 else 0 := by
  rintro ⟨l, n, k⟩ e h
  cases e with
  | trigger v => cases l <;> cases v <;> simp_all [watcherStep]
  | complete => cases l <;> simp_all [watcherStep]

/-- In every reachable watcher state the number of in-flight checks is 1
when the latch is set and 0 when it is clear. -/
lemma watcherRun_inv (evs : List WatcherEvent) :
    (watcherRun evs).inflight = if (watcherRun evs).latch then 1 else 0 := by
  unfold watcherRun
  have key : ∀ (l : List WatcherEvent) (s : WatcherState),
      s.inflight = (if s.latch then 1 else 0) →
      (l.foldl watcherStep s).inflight =
        if (l.foldl watcherStep s).latch then 1 else 0 := by
    intro l
    induction l with
    | nil => exact fun s h => h
    | cons e t ih => exact fun s h => ih _ (watcherStep_inv s e h)
  exact key evs watcherInit rfl

/-- C9: from mount, after any sequence of visibility/focus events and
check completions, at most one `checkSessionAction` call is in flight; a
trigger arriving while one is in flight leaves the state — including the
count of issued calls — unchanged (the event is dropped, not queued); and
completion of the in-flight check on any path clears the latch and the
in-flight count. -/
theorem c9_single_inflight_check (evs : List WatcherEvent) :
    (watcherRun evs).inflight ≤ 1 ∧
    ((watcherRun evs).inflight = 1 →
      ∀ v, watcherStep (watcherRun evs) (.trigger v) = watcherRun evs) ∧
    (0 < (watcherRun evs).inflight →
      (watcherStep (watcherRun evs) .complete).latch = false ∧
      (watcherStep (watcherRun evs) .complete).inflight = 0) := by
  have hinv := watcherRun_inv evs
  refine ⟨?_, ?_, ?_⟩
  · rw [hinv]
    split <;> omega
  · intro h1 v
    have hl : (watcherRun evs).latch = true := by
      by_contra hl
      rw [hinv] at h1
      simp [Bool.not_eq_true] at hl
      rw [hl] at h1
      simp at h1
    simp [watcherStep, hl]
  · intro h0
    have hl : (watcherRun evs).latch = true := by
      by_contra hl
      rw [hinv] at h0
      simp [Bool.not_eq_true] at hl
      rw [hl] at h0
      simp at h0
    have h1 : (watcherRun evs).inflight = 1 := by rw [hinv, hl]; rfl
    exact ⟨by simp [watcherStep, h1], by simp [watcherStep, h1]⟩

/-- Witness for C9 after one visible trigger: one check in flight, a second
trigger is a no-op, and completion clears everything. -/
theorem c9_witness :
    (watcherRun [.trigger true]).inflight ≤ 1 ∧
    watcherStep (watcherRun [.trigger true]) (.trigger true) = watcherRun [.trigger true] ∧
    (watcherStep (watcherRun [.trigger true]) .complete).latch = false ∧
    (watcherStep (watcherRun [.trigger true]) .complete).inflight = 0 :=
  ⟨(c9_single_inflight_check [.trigger true]).1,
   (c9_single_inflight_check [.trigger true]).2.1 (by decide) true,
   ((c9_single_inflight_check [.trigger true]).2.2 (by decide)).1,
   ((c9_single_inflight_check [.trigger true]).2.2 (by decide)).2⟩

/-- C10: when the `checkSessionAction` round trip itself resolves and
returns `false`, the watcher triggers neither the caller-supplied callback
nor a page reload: the internally raised `Session expired` error is
filtered out, because the callback/reload branch fires only on a message
containing `Failed to fetch` — which `Session expired` does not. -/
theorem c10_session_expired_resolution_is_silent :
    (∀ hasCallback, sessionCheckEffect (.ok false) hasCallback = .noAction) ∧
    jsIncludes "Session expired" "Failed to fetch" = false := by
  decide

end AuthKit
